import Mathlib

/-
  Verification development for the News Curation and Scoring Engine of
  pure-price-press.

  Scores, price changes and rates are modelled as rationals; the decimal
  constants of the source (0.3, 1.2, ...) are exact in `Rat`, so every
  threshold comparison below has the same outcome as in the source.

  Functions whose code lives in the repository (the Python reference
  implementations in src/docs/NEWS_FEATURE_SPEC.md and the TypeScript of
  the frontend) are translated directly from that code.  The scoring and
  lifecycle engine itself has no implementation under src/; definitions
  for it are marked `Modelled from the spec:` and follow the wording of
  the design document.
-/

namespace PurePricePress

/-- Translated from `calculate_importance_boost`
(src/docs/NEWS_FEATURE_SPEC.md, section 4.5): the step boost table for the
number of sources reporting a merged topic. -/
def calculate_importance_boost (source_count : Nat) : Rat :=
  if source_count = 1 then 1
  else if source_count = 2 then 12/10
  else if source_count = 3 then 14/10
  else if 4 ≤ source_count then 16/10
  else 1

/-- Threshold used by stage-3 verification
(src/docs/NEWS_FEATURE_SPEC.md, section 6.3): 0.3 percent. -/
def THRESHOLD : Rat := 3/10

/-- Translated from `check_direction_match`
(src/docs/NEWS_FEATURE_SPEC.md, section 6.3): a prediction matches only on
a strict move beyond the threshold in the expected direction. -/
def check_direction_match (expected : String) (actual : Rat) : Bool :=
  if expected = "down" ∧ actual < -THRESHOLD then true
  else if expected = "up" ∧ actual > THRESHOLD then true
  else false

/-- Translated from the verification-rate branch of `calculate_final_score`
(src/docs/NEWS_FEATURE_SPEC.md, section 6.4): confidence label and score
multiplier from the number of verified predictions. -/
def verification_adjustment (verified_count total_predictions : Nat) :
    String × Rat :=
  if 0 < total_predictions then
    let verification_rate : Rat := verified_count / total_predictions
    if verification_rate ≥ 7/10 then ("high", 12/10)
    else if verification_rate ≥ 4/10 then ("medium", 1)
    else ("low", 7/10)
  else ("unknown", 9/10)

lemma check_direction_match_iff (expected : String) (actual : Rat) :
    check_direction_match expected actual = true ↔
      (expected = "down" ∧ actual < -(3/10)) ∨
      (expected = "up" ∧ 3/10 < actual) := by
  unfold check_direction_match THRESHOLD
  split_ifs with h1 h2
  · simp only [true_iff]
    exact Or.inl h1
  · simp only [true_iff]
    exact Or.inr h2
  · simp only [Bool.false_eq_true, false_iff]
    rintro (hc | hc)
    · exact h1 hc
    · exact h2 hc

lemma verification_adjustment_pos (v t : Nat) (h : 0 < t) :
    verification_adjustment v t =
      if (7 : Rat)/10 ≤ (v : Rat) / t then ("high", 12/10)
      else if (4 : Rat)/10 ≤ (v : Rat) / t then ("medium", 1)
      else ("low", 7/10) := by
  unfold verification_adjustment
  rw [if_pos h]

/-- Claim C1: the importance boost is the exact step function 1.0 / 1.2 / 1.4 / 1.6
for source counts 1 / 2 / 3 / at least 4; in particular a count of 5 still
gets 1.6, never an interpolated value. -/
theorem importance_boost_step_table (n : Nat) (h : 4 ≤ n) :
    calculate_importance_boost 1 = 1 ∧
    calculate_importance_boost 2 = 12/10 ∧
    calculate_importance_boost 3 = 14/10 ∧
    calculate_importance_boost n = 16/10 ∧
    calculate_importance_boost 5 = 16/10 := by
  refine ⟨by norm_num [calculate_importance_boost],
    by norm_num [calculate_importance_boost],
    by norm_num [calculate_importance_boost], ?_,
    by norm_num [calculate_importance_boost]⟩
  unfold calculate_importance_boost
  rw [if_neg (by omega), if_neg (by omega), if_neg (by omega), if_pos h]

/-- Witness for C1 at source count 7. -/
theorem importance_boost_step_table_witness :
    calculate_importance_boost 7 = 16/10 :=
  (importance_boost_step_table 7 (by norm_num)).2.2.2.1

/-- Claim C2: a verification prediction is matched exactly when the expected
direction is "down" and the change is strictly below -0.3 percent, or the
expected direction is "up" and the change is strictly above +0.3 percent;
a change of exactly +0.30 does not count as "up" while +0.31 does, and any
change of absolute value at most 0.3 is unmatched. -/
theorem check_direction_match_spec (expected : String) (actual : Rat) :
    (check_direction_match expected actual = true ↔
      (expected = "down" ∧ actual < -(3/10)) ∨
      (expected = "up" ∧ 3/10 < actual)) ∧
    check_direction_match "up" (3/10) = false ∧
    check_direction_match "up" (31/100) = true ∧
    (|actual| ≤ 3/10 → check_direction_match expected actual = false) := by
  refine ⟨check_direction_match_iff expected actual, ?_, ?_, ?_⟩
  · rcases hb : check_direction_match "up" (3/10) with _ | _
    · rfl
    · rcases (check_direction_match_iff "up" (3/10)).mp hb with hc | hc
      · exact absurd hc.1 (by decide)
      · exact absurd hc.2 (by norm_num)
  · exact (check_direction_match_iff "up" (31/100)).mpr
      (Or.inr ⟨rfl, by norm_num⟩)
  · intro habs
    rw [abs_le] at habs
    rcases hb : check_direction_match expected actual with _ | _
    · rfl
    · rcases (check_direction_match_iff expected actual).mp hb with hc | hc
      · exact absurd habs.1 (not_le.mpr (by linarith [hc.2]))
      · exact absurd habs.2 (not_le.mpr hc.2)

/-- Witness for C2 at a change of +0.1 percent. -/
theorem check_direction_match_spec_witness :
    |(1/10 : Rat)| ≤ 3/10 ∧ check_direction_match "up" (1/10) = false := by
  have habs : |(1/10 : Rat)| ≤ 3/10 :=
    abs_le.mpr ⟨by norm_num, by norm_num⟩
  exact ⟨habs, (check_direction_match_spec "up" (1/10)).2.2.2 habs⟩

/-- Claim C3: with at least one prediction the multiplier and confidence are
1.2 / "high" iff the verification rate is at least 0.7, 1.0 / "medium" iff
it is in [0.4, 0.7), and 0.7 / "low" iff it is below 0.4; with zero
predictions the confidence is "unknown" with multiplier exactly 0.9,
which is nonzero. -/
theorem verification_adjustment_spec (v t : Nat) (h : 0 < t) :
    (verification_adjustment v t = ("high", 12/10) ↔ 7/10 ≤ (v : Rat) / t) ∧
    (verification_adjustment v t = ("medium", 1) ↔
      4/10 ≤ (v : Rat) / t ∧ (v : Rat) / t < 7/10) ∧
    (verification_adjustment v t = ("low", 7/10) ↔ (v : Rat) / t < 4/10) ∧
    verification_adjustment v 0 = ("unknown", 9/10) ∧
    (verification_adjustment v 0).2 ≠ 0 := by
  have h0 : verification_adjustment v 0 = ("unknown", 9/10) := by
    unfold verification_adjustment
    rw [if_neg (by omega)]
  rw [verification_adjustment_pos v t h]
  refine ⟨?_, ?_, ?_, h0, by rw [h0]; norm_num⟩
  · split_ifs with h1 h2
    · simp only [true_iff]
      exact h1
    · constructor
      · intro hp
        exact absurd (congrArg Prod.fst hp) (by decide)
      · intro hr
        exact absurd hr h1
    · constructor
      · intro hp
        exact absurd (congrArg Prod.fst hp) (by decide)
      · intro hr
        exact absurd hr h1
  · split_ifs with h1 h2
    · constructor
      · intro hp
        exact absurd (congrArg Prod.fst hp) (by decide)
      · intro hr
        exact absurd h1 (not_le.mpr hr.2)
    · simp only [true_iff]
      exact ⟨h2, not_le.mp h1⟩
    · constructor
      · intro hp
        exact absurd (congrArg Prod.fst hp) (by decide)
      · intro hr
        exact absurd hr.1 h2
  · split_ifs with h1 h2
    · constructor
      · intro hp
        exact absurd (congrArg Prod.fst hp) (by decide)
      · intro hr
        exact absurd h1 (not_le.mpr (lt_of_lt_of_le hr (by norm_num)))
    · constructor
      · intro hp
        exact absurd (congrArg Prod.fst hp) (by decide)
      · intro hr
        exact absurd h2 (not_le.mpr hr)
    · simp only [true_iff]
      exact not_le.mp h2

/-- Witness for C3 at 7 verified predictions out of 10. -/
theorem verification_adjustment_spec_witness :
    verification_adjustment 7 10 = ("high", 12/10) :=
  (verification_adjustment_spec 7 10 (by norm_num)).1.mpr (by norm_num)

/-- Modelled from the spec: the Scoring and Lifecycle Engine, which has no
implementation under src/, computes the deterministic base score as
`min(10, stage4_impact_score * importance_boost * multiplier)` on the
10-point scale used by the shipped UI and the database schema. -/
def base_score (stage4_impact_score importance_boost multiplier : Rat) :
    Rat :=
  min 10 (stage4_impact_score * importance_boost * multiplier)

lemma importance_boost_nonneg (n : Nat) :
    0 ≤ calculate_importance_boost n := by
  unfold calculate_importance_boost
  split_ifs <;> norm_num

lemma multiplier_nonneg (v t : Nat) :
    0 ≤ (verification_adjustment v t).2 := by
  rcases Nat.eq_zero_or_pos t with ht | ht
  · subst ht
    unfold verification_adjustment
    rw [if_neg (by omega)]
    norm_num
  · rw [verification_adjustment_pos v t ht]
    split_ifs <;> norm_num

/-- Claim C4: the deterministic base score equals
`min(10, stage4_impact_score * importance_boost * multiplier)` and, for a
nonnegative stage-4 impact score with the boost and multiplier produced by
the tables above, always lies in the interval [0, 10]. -/
theorem base_score_range (impact : Rat) (n v t : Nat) (h : 0 ≤ impact) :
    base_score impact (calculate_importance_boost n)
        (verification_adjustment v t).2 =
      min 10 (impact * calculate_importance_boost n *
        (verification_adjustment v t).2) ∧
    0 ≤ base_score impact (calculate_importance_boost n)
        (verification_adjustment v t).2 ∧
    base_score impact (calculate_importance_boost n)
        (verification_adjustment v t).2 ≤ 10 := by
  refine ⟨rfl, ?_, min_le_left _ _⟩
  have hb := importance_boost_nonneg n
  have hm := multiplier_nonneg v t
  have hp : 0 ≤ impact * calculate_importance_boost n *
      (verification_adjustment v t).2 :=
    mul_nonneg (mul_nonneg h hb) hm
  exact le_min (by norm_num) hp

/-- Witness for C4 at impact 5, three sources, 1 of 2 predictions verified. -/
theorem base_score_range_witness :
    0 ≤ base_score 5 (calculate_importance_boost 3)
        (verification_adjustment 1 2).2 ∧
    base_score 5 (calculate_importance_boost 3)
        (verification_adjustment 1 2).2 ≤ 10 :=
  (base_score_range 5 3 1 2 (by norm_num)).2

/-- Modelled from the spec: time decay of the effective score of the
Scoring and Lifecycle Engine (missing from src/), as a function of the
age of the topic in hours. -/
def time_decay (age_hours : Rat) : Rat :=
  if age_hours < 24 then 0
  else if age_hours < 48 then 1/2
  else if age_hours < 72 then 1
  else 3/2

/-- Modelled from the spec: the consecutive-day boost of the Scoring and
Lifecycle Engine (missing from src/),
`min(1.0, 0.3 * (reporting_days - 1))`, capped at +1.0. -/
def day_boost (reporting_days : Nat) : Rat :=
  min 1 (3/10 * ((reporting_days : Rat) - 1))

/-- Modelled from the spec: the recomputed effective score of the Scoring
and Lifecycle Engine (missing from src/),
`base_score + day_boost - time_decay`. -/
def effective_score (base : Rat) (reporting_days : Nat) (age_hours : Rat) :
    Rat :=
  base + day_boost reporting_days - time_decay age_hours

lemma time_decay_monotone {a b : Rat} (hab : a ≤ b) :
    time_decay a ≤ time_decay b := by
  unfold time_decay
  split_ifs <;> (try norm_num) <;> linarith

/-- Claim C6: for fixed base score and reporting days the effective score is
non-increasing in the age of the topic, and the time decay takes exactly
the values 0, 0.5, 1.0, 1.5 on the age intervals [0,24), [24,48), [48,72)
and [72,infinity) hours; the effective score is the day-boosted base score
minus that decay. -/
theorem effective_score_decay_monotone (base : Rat) (d : Nat) (a b : Rat)
    (hab : a ≤ b) :
    effective_score base d b ≤ effective_score base d a ∧
    (0 ≤ a → a < 24 → time_decay a = 0) ∧
    (24 ≤ a → a < 48 → time_decay a = 1/2) ∧
    (48 ≤ a → a < 72 → time_decay a = 1) ∧
    (72 ≤ a → time_decay a = 3/2) ∧
    effective_score base d a =
      base + min 1 (3/10 * ((d : Rat) - 1)) - time_decay a := by
  refine ⟨?_, ?_, ?_, ?_, ?_, rfl⟩
  · have hd := time_decay_monotone hab
    unfold effective_score
    linarith
  · intro _ h24
    unfold time_decay
    rw [if_pos h24]
  · intro h24 h48
    unfold time_decay
    rw [if_neg (by linarith), if_pos h48]
  · intro h48 h72
    unfold time_decay
    rw [if_neg (by linarith), if_neg (by linarith), if_pos h72]
  · intro h72
    unfold time_decay
    rw [if_neg (by linarith), if_neg (by linarith), if_neg (by linarith)]

/-- Witness for C6: ages 30h and 80h, base 6, 2 reporting days. -/
theorem effective_score_decay_monotone_witness :
    effective_score 6 2 80 ≤ effective_score 6 2 30 ∧ time_decay 80 = 3/2 := by
  have h := effective_score_decay_monotone 6 2 30 80 (by norm_num)
  have h80 := effective_score_decay_monotone 6 2 80 80 le_rfl
  exact ⟨h.1, h80.2.2.2.2.1 (by norm_num)⟩

/-- Modelled from the spec: stage-1 screening of the Analysis Pipeline
Orchestrator (missing from src/) keeps the topics the LLM judges relevant
(an arbitrary predicate here), in original input order, and hard-caps the
result at 30 items by truncation, never re-ranking. -/
def stage1_screen {α : Type} (judged : α → Bool) (topics : List α) :
    List α :=
  (topics.filter judged).take 30

/-- Claim C7: stage 1 returns at most 30 topics; the result is a sublist of the
input (original order, no re-ranking), and when more than 30 topics are
nominated the selection is exactly the first 30 nominated in input order. -/
theorem stage1_screen_cap {α : Type} (judged : α → Bool)
    (topics : List α) :
    (stage1_screen judged topics).length ≤ 30 ∧
    (stage1_screen judged topics).Sublist topics ∧
    (30 < (topics.filter judged).length →
      (stage1_screen judged topics).length = 30 ∧
      stage1_screen judged topics = (topics.filter judged).take 30) := by
  refine ⟨?_, ?_, ?_⟩
  · unfold stage1_screen
    rw [List.length_take]
    exact min_le_left _ _
  · exact ((topics.filter judged).take_sublist 30).trans
      (topics.filter_sublist)
  · intro hlen
    refine ⟨?_, rfl⟩
    unfold stage1_screen
    rw [List.length_take]
    omega

/-- Witness for C7: 40 topics all judged relevant are capped at 30. -/
theorem stage1_screen_cap_witness :
    30 < ((List.range 40).filter (fun _ => true)).length ∧
    (stage1_screen (fun _ => true) (List.range 40)).length = 30 := by
  have hl : 30 < ((List.range 40).filter (fun _ => true)).length := by
    simp
  exact ⟨hl, ((stage1_screen_cap (fun _ => true) (List.range 40)).2.2 hl).1⟩

/-- Modelled from the spec: the display-duration rule of the Scoring and
Lifecycle Engine (missing from src/), bucketed on the effective score;
`none` means the item is not shown at all. -/
def display_duration_days (eff : Rat) : Option Nat :=
  if 8 ≤ eff then some 7
  else if 6 ≤ eff then some 3
  else if 4 ≤ eff then some 1
  else none

/-- Modelled from the spec: membership in the displayed curated set of the
day, decided by the Scoring and Lifecycle Engine (missing from src/).  A pinned item is always shown; otherwise the item is shown while the
days elapsed since `first_seen_at` are below the bucketed duration. -/
def included_today (is_pinned : Bool) (eff : Rat)
    (days_since_first_seen : Nat) : Bool :=
  is_pinned ||
    match display_duration_days eff with
    | some d => decide (days_since_first_seen < d)
    | none => false

/-- Claim C8: a pinned item is always included in the displayed set regardless of
its effective score (even 0), while a non-pinned item with effective score
below 4.0 (for example 3.9) is never included. -/
theorem pinned_display_boundary (eff : Rat) (days : Nat) (h : eff < 4) :
    included_today true 0 days = true ∧
    included_today true eff days = true ∧
    included_today false eff days = false ∧
    included_today false (39/10) days = false := by
  have hlow : ∀ e : Rat, e < 4 → display_duration_days e = none := by
    intro e he
    unfold display_duration_days
    rw [if_neg (by linarith), if_neg (by linarith), if_neg (by linarith)]
  refine ⟨rfl, rfl, ?_, ?_⟩
  · unfold included_today
    rw [hlow eff h]
    rfl
  · unfold included_today
    rw [hlow (39/10) (by norm_num)]
    rfl

/-- Witness for C8 at effective score 2 and age 0 days. -/
theorem pinned_display_boundary_witness :
    included_today true (2 : Rat) 0 = true ∧
    included_today false (2 : Rat) 0 = false := by
  have h := pinned_display_boundary 2 0 (by norm_num)
  exact ⟨h.2.1, h.2.2.1⟩

/-- A curated-news row restricted to the fields the continuity detector
reads, following the CuratedNews declaration in
src/frontend/src/lib/types.ts; timestamps are whole days. -/
structure CuratedRow where
  title : String
  category : Option String
  affected_symbols : Finset String
  first_seen_at : Nat
  last_seen_at : Nat
  reporting_days : Nat
deriving DecidableEq

/-- A merged topic arriving on a later day, restricted to the fields the
continuity detector compares. -/
structure IncomingTopic where
  title : String
  category : Option String
  affected_symbols : Finset String
deriving DecidableEq

/-- Modelled from the spec: the affected-symbol-set overlap measure of the
continuity detector (missing from src/), as the share of common symbols
in the union of the two sets. -/
def symbolOverlap (a b : Finset String) : Rat :=
  ((a ∩ b).card : Rat) / ((a ∪ b).card : Rat)

/-- Modelled from the spec: the three joint continuity criteria of the
Scoring and Lifecycle Engine (missing from src/) — title
similarity at least 0.85, symbol overlap at least 50 percent, equal
category — restricted to rows seen within the last 7 days.  The
title-similarity measure `sim` is a parameter (the design document leaves
the concrete measure open). -/
def continuityMatch (sim : String → String → Rat) (now : Nat)
    (topic : IncomingTopic) (row : CuratedRow) : Bool :=
  decide (85/100 ≤ sim topic.title row.title) &&
  decide (1/2 ≤ symbolOverlap topic.affected_symbols row.affected_symbols) &&
  decide (topic.category = row.category) &&
  decide (now - row.last_seen_at ≤ 7)

/-- Modelled from the spec: the in-place continuity update of an existing
row — `reporting_days` incremented, `last_seen_at` set to now. -/
def updateRow (now : Nat) (row : CuratedRow) : CuratedRow :=
  { row with reporting_days := row.reporting_days + 1, last_seen_at := now }

/-- Modelled from the spec: the row created for a topic never seen
before. -/
def newRow (now : Nat) (topic : IncomingTopic) : CuratedRow :=
  { title := topic.title, category := topic.category,
    affected_symbols := topic.affected_symbols,
    first_seen_at := now, last_seen_at := now, reporting_days := 1 }

/-- Modelled from the spec: the find-and-merge-or-create operation of the
Scoring and Lifecycle Engine — the first matching existing row is updated
in place, and only when no row matches is a fresh row inserted. -/
def mergeOrCreate (sim : String → String → Rat) (now : Nat)
    (topic : IncomingTopic) : List CuratedRow → List CuratedRow
  | [] => [newRow now topic]
  | row :: rest =>
    if continuityMatch sim now topic row then updateRow now row :: rest
    else row :: mergeOrCreate sim now topic rest

lemma continuityMatch_updateRow (sim : String → String → Rat) (now : Nat)
    (topic : IncomingTopic) (row : CuratedRow)
    (h : continuityMatch sim now topic row = true) :
    continuityMatch sim now topic (updateRow now row) = true := by
  unfold continuityMatch updateRow at *
  simp only [Bool.and_eq_true, decide_eq_true_eq] at *
  exact ⟨⟨⟨h.1.1.1, h.1.1.2⟩, h.1.2⟩, by omega⟩

/-- Claim C5: when exactly one existing row from the state matches the incoming
topic on the joint continuity criteria, the engine updates that row in
place — incrementing `reporting_days` and setting `last_seen_at` — without
inserting a duplicate, and afterwards exactly one row still matches the
topic. -/
theorem continuity_invariant (sim : String → String → Rat) (now : Nat)
    (topic : IncomingTopic) (state : List CuratedRow)
    (h : (state.filter
      (fun r => continuityMatch sim now topic r)).length = 1) :
    ∃ pre row post,
      state = pre ++ row :: post ∧
      continuityMatch sim now topic row = true ∧
      mergeOrCreate sim now topic state = pre ++ updateRow now row :: post ∧
      (updateRow now row).reporting_days = row.reporting_days + 1 ∧
      (updateRow now row).last_seen_at = now ∧
      (mergeOrCreate sim now topic state).length = state.length ∧
      ((mergeOrCreate sim now topic state).filter
        (fun r => continuityMatch sim now topic r)).length = 1 := by
  induction state with
  | nil => simp at h
  | cons head rest ih =>
    rw [List.filter_cons] at h
    by_cases hm : continuityMatch sim now topic head = true
    · rw [if_pos hm] at h
      have hrest : (rest.filter
          (fun r => continuityMatch sim now topic r)).length = 0 := by
        simpa using h
      have hmc : mergeOrCreate sim now topic (head :: rest) =
          updateRow now head :: rest := by
        rw [mergeOrCreate, if_pos hm]
      refine ⟨[], head, rest, rfl, hm, by simpa using hmc, rfl, rfl, ?_, ?_⟩
      · rw [hmc]
        simp
      · rw [hmc, List.filter_cons,
          if_pos (continuityMatch_updateRow sim now topic head hm)]
        simp [hrest]
    · rw [if_neg hm] at h
      obtain ⟨pre, row, post, heq, hrow, hmc, _, _, hlen, hfil⟩ := ih h
      have hmc2 : mergeOrCreate sim now topic (head :: rest) =
          head :: mergeOrCreate sim now topic rest := by
        rw [mergeOrCreate, if_neg hm]
      refine ⟨head :: pre, row, post, by rw [heq]; rfl, hrow, ?_, rfl, rfl,
        ?_, ?_⟩
      · rw [hmc2, hmc]
        rfl
      · rw [hmc2]
        simp [hlen]
      · rw [hmc2, List.filter_cons, if_neg hm]
        exact hfil

/-- Title similarity used by the C5 witness: 1 for equal titles, else 0. -/
def exactSim (a b : String) : Rat := if a = b then 1 else 0

/-- Incoming topic of the C5 witness. -/
def exTopic : IncomingTopic :=
  { title := "Fed holds rates", category := some "monetary_policy",
    affected_symbols := {"SPY"} }

/-- Day-old row of the C5 witness. -/
def exRow : CuratedRow :=
  { title := "Fed holds rates", category := some "monetary_policy",
    affected_symbols := {"SPY"}, first_seen_at := 9, last_seen_at := 9,
    reporting_days := 1 }

/-- State of the C5 witness: exactly one row, which matches the topic. -/
def exState : List CuratedRow := [exRow]

lemma exRow_match : continuityMatch exactSim 10 exTopic exRow = true := by
  unfold continuityMatch exactSim exTopic exRow symbolOverlap
  simp only [Bool.and_eq_true, decide_eq_true_eq]
  refine ⟨⟨⟨?_, ?_⟩, trivial⟩, by omega⟩
  · norm_num
  · rw [Finset.inter_self, Finset.union_self, Finset.card_singleton]
    norm_num

/-- Witness for C5: a single matching day-old row is updated, not
duplicated. -/
theorem continuity_invariant_witness :
    (exState.filter
      (fun r => continuityMatch exactSim 10 exTopic r)).length = 1 ∧
    (mergeOrCreate exactSim 10 exTopic exState).length = exState.length ∧
    ((mergeOrCreate exactSim 10 exTopic exState).filter
      (fun r => continuityMatch exactSim 10 exTopic r)).length = 1 := by
  have h1 : (exState.filter
      (fun r => continuityMatch exactSim 10 exTopic r)).length = 1 := by
    unfold exState
    rw [List.filter_cons, if_pos exRow_match]
    rfl
  obtain ⟨_, _, _, _, _, _, _, _, hlen, hfil⟩ :=
    continuity_invariant exactSim 10 exTopic exState h1
  exact ⟨h1, hlen, hfil⟩

/-- A daily-digest row restricted to the fields the run-level idempotency
logic reads; `digest_date` is declared UNIQUE in
src/docs/supabase-schema.sql (daily_digest). -/
structure DigestRow where
  digest_date : Nat
  status : String
deriving DecidableEq

/-- The integrity invariant enforced by the UNIQUE constraint on
daily_digest.digest_date: distinct rows carry distinct dates. -/
def datesUnique (table : List DigestRow) : Prop :=
  table.Pairwise (fun r s => r.digest_date ≠ s.digest_date)

/-- Modelled from the spec: a run of the Batch Coordinator (missing from
src/) keyed by
`digest_date` — when a digest row for the date already exists the run
either no-ops or, only when explicitly forced, overwrites that row in
place; only a fresh date inserts a row. -/
def runBatchForDate (table : List DigestRow) (d : DigestRow)
    (force : Bool) : List DigestRow :=
  if table.any (fun r => decide (r.digest_date = d.digest_date)) then
    if force then
      table.map (fun r => if r.digest_date = d.digest_date then d else r)
    else table
  else d :: table

lemma filter_date_length_one {table : List DigestRow} {x : Nat}
    (hu : datesUnique table)
    (hm : table.any (fun r => decide (r.digest_date = x)) = true) :
    (table.filter (fun r => decide (r.digest_date = x))).length = 1 := by
  induction table with
  | nil => simp at hm
  | cons head rest ih =>
    rw [datesUnique, List.pairwise_cons] at hu
    rw [List.any_cons] at hm
    rw [List.filter_cons]
    by_cases hh : head.digest_date = x
    · rw [if_pos (by simpa using hh)]
      have hempty : rest.filter (fun r => decide (r.digest_date = x)) = [] := by
        rw [List.filter_eq_nil_iff]
        intro r hr
        have := hu.1 r hr
        simp only [decide_eq_true_eq]
        omega
      rw [hempty]
      rfl
    · rw [if_neg (by simpa using hh)]
      have hm2 : rest.any (fun r => decide (r.digest_date = x)) = true := by
        rcases Bool.or_eq_true_iff.mp hm with hc | hc
        · exact absurd (of_decide_eq_true hc) hh
        · exact hc
      exact ih hu.2 hm2

lemma runBatch_map_date (d : DigestRow) (r : DigestRow) :
    ((if r.digest_date = d.digest_date then d else r) : DigestRow).digest_date
      = r.digest_date := by
  split_ifs with hr
  · omega
  · rfl

/-- Claim C9: starting from a table satisfying the digest_date uniqueness
constraint, a batch run for a date keeps the constraint; a second run for
an already-recorded date without force is a strict no-op; and in every
case exactly one digest row for that date exists afterwards — never a
second row. -/
theorem digest_date_idempotency (table : List DigestRow) (d : DigestRow)
    (force : Bool) (h : datesUnique table) :
    datesUnique (runBatchForDate table d force) ∧
    (table.any (fun r => decide (r.digest_date = d.digest_date)) = true →
      force = false → runBatchForDate table d force = table) ∧
    ((runBatchForDate table d force).filter
      (fun r => decide (r.digest_date = d.digest_date))).length = 1 := by
  by_cases hany :
      table.any (fun r => decide (r.digest_date = d.digest_date)) = true
  · rcases force with _ | _
    · -- force = false: strict no-op
      have hrun : runBatchForDate table d false = table := by
        unfold runBatchForDate
        rw [if_pos hany, if_neg (by simp)]
      refine ⟨by rw [hrun]; exact h, fun _ _ => hrun, ?_⟩
      rw [hrun]
      exact filter_date_length_one h hany
    · -- force = true: in-place overwrite
      have hrun : runBatchForDate table d true =
          table.map (fun r => if r.digest_date = d.digest_date then d
            else r) := by
        unfold runBatchForDate
        rw [if_pos hany, if_pos rfl]
      have hdates : ∀ r : DigestRow,
          ((if r.digest_date = d.digest_date then d else r) :
            DigestRow).digest_date = r.digest_date :=
        runBatch_map_date d
      refine ⟨?_, fun _ hc => absurd hc (by simp), ?_⟩
      · rw [hrun]
        exact List.Pairwise.map _
          (fun a b hab => by rw [hdates a, hdates b]; exact hab) h
      · rw [hrun, List.filter_map]
        rw [List.length_map]
        have hcongr : table.filter
            ((fun r => decide (r.digest_date = d.digest_date)) ∘
              (fun r => if r.digest_date = d.digest_date then d else r)) =
            table.filter (fun r => decide (r.digest_date = d.digest_date)) :=
          List.filter_congr (fun r _ => by
            simp only [Function.comp_apply, hdates r])
        rw [hcongr]
        exact filter_date_length_one h hany
  · -- fresh date: one insertion
    have hrun : runBatchForDate table d force = d :: table := by
      unfold runBatchForDate
      rw [if_neg hany]
    have hnone : ∀ r ∈ table, r.digest_date ≠ d.digest_date := by
      intro r hr
      have := List.any_eq_false.mp (Bool.not_eq_true _ |>.mp hany) r hr
      simpa using this
    refine ⟨?_, fun hc => absurd hc hany, ?_⟩
    · rw [hrun, datesUnique, List.pairwise_cons]
      exact ⟨fun r hr => (hnone r hr).symm, h⟩
    · rw [hrun, List.filter_cons, if_pos (by simp)]
      have hempty : table.filter
          (fun r => decide (r.digest_date = d.digest_date)) = [] := by
        rw [List.filter_eq_nil_iff]
        intro r hr
        simpa using hnone r hr
      rw [hempty]
      rfl

/-- Witness for C9: a one-row table, re-run without force for the same
date. -/
theorem digest_date_idempotency_witness :
    datesUnique [DigestRow.mk 100 "completed"] ∧
    runBatchForDate [DigestRow.mk 100 "completed"]
      (DigestRow.mk 100 "running") false = [DigestRow.mk 100 "completed"] := by
  have hu : datesUnique [DigestRow.mk 100 "completed"] := by
    unfold datesUnique
    exact List.pairwise_singleton _ _
  have hany : (([DigestRow.mk 100 "completed"]).any
      (fun r => decide (r.digest_date =
        (DigestRow.mk 100 "running").digest_date))) = true := by
    simp
  exact ⟨hu, (digest_date_idempotency [DigestRow.mk 100 "completed"]
    (DigestRow.mk 100 "running") false hu).2.1 hany rfl⟩

namespace NewsCard

/-- Translated from `getScoreColor` in
src/frontend/src/components/NewsCard.tsx. -/
def getScoreColor (score : Rat) : String :=
  if 8 ≤ score then "text-red-500 bg-red-500/20"
  else if 6 ≤ score then "text-yellow-500 bg-yellow-500/20"
  else if 4 ≤ score then "text-blue-500 bg-blue-500/20"
  else "text-gray-400 bg-white/10"

/-- Translated from `getScoreLabel` in
src/frontend/src/components/NewsCard.tsx. -/
def getScoreLabel (score : Rat) : String :=
  if 8 ≤ score then "必見"
  else if 6 ≤ score then "重要"
  else if 4 ≤ score then "参考"
  else "低"

end NewsCard

namespace NewsDetail

/-- A score badge of the news detail page: background, border and label
classes. -/
structure ScoreBadge where
  bg : String
  border : String
  label : String
deriving DecidableEq

/-- Translated from `getScoreColor` in the news detail page
(src/unnamed/part_011). -/
def getScoreColor (score : Rat) : String :=
  if 8 ≤ score then "text-red-400"
  else if 6 ≤ score then "text-yellow-400"
  else if 4 ≤ score then "text-blue-400"
  else "text-gray-400"

/-- Translated from `getScoreBadge` in the news detail page
(src/unnamed/part_011). -/
def getScoreBadge (score : Rat) : ScoreBadge :=
  if 8 ≤ score then ⟨"bg-red-900/50", "border-red-700", "必見"⟩
  else if 6 ≤ score then ⟨"bg-yellow-900/50", "border-yellow-700", "重要"⟩
  else if 4 ≤ score then ⟨"bg-blue-900/50", "border-blue-700", "参考"⟩
  else ⟨"bg-gray-800", "border-gray-700", "低優先"⟩

end NewsDetail

/-- Claim C10: the news-list card and the news detail page assign every score to
the same one of the four bands — corresponding labels (必見 / 重要 / 参考 /
low) and corresponding colors hold for exactly the same scores — and both
treat the lower bound of the top band inclusively: a score of exactly 8
gets 必見 in both components. -/
theorem score_bands_agree (s : Rat) :
    (NewsCard.getScoreLabel s = "必見" ↔
      (NewsDetail.getScoreBadge s).label = "必見") ∧
    (NewsCard.getScoreLabel s = "重要" ↔
      (NewsDetail.getScoreBadge s).label = "重要") ∧
    (NewsCard.getScoreLabel s = "参考" ↔
      (NewsDetail.getScoreBadge s).label = "参考") ∧
    (NewsCard.getScoreLabel s = "低" ↔
      (NewsDetail.getScoreBadge s).label = "低優先") ∧
    (NewsCard.getScoreColor s = "text-red-500 bg-red-500/20" ↔
      NewsDetail.getScoreColor s = "text-red-400") ∧
    (NewsCard.getScoreColor s = "text-yellow-500 bg-yellow-500/20" ↔
      NewsDetail.getScoreColor s = "text-yellow-400") ∧
    (NewsCard.getScoreColor s = "text-blue-500 bg-blue-500/20" ↔
      NewsDetail.getScoreColor s = "text-blue-400") ∧
    (NewsCard.getScoreColor s = "text-gray-400 bg-white/10" ↔
      NewsDetail.getScoreColor s = "text-gray-400") ∧
    NewsCard.getScoreLabel 8 = "必見" ∧
    (NewsDetail.getScoreBadge 8).label = "必見" := by
  have h8 : (8 : Rat) ≤ 8 := le_refl 8
  unfold NewsCard.getScoreLabel NewsCard.getScoreColor
    NewsDetail.getScoreBadge NewsDetail.getScoreColor
  rw [if_pos h8, if_pos h8]
  split_ifs <;> refine ⟨?_, ?_, ?_, ?_, ?_, ?_, ?_, ?_, rfl, rfl⟩ <;>
    simp_all

end PurePricePress
